import Mathlib

/-!
Shallow embedding of the `ren` crate (a safety layer over OpenGL 4.5):
the buffer object (`src/gl45/buffer.rs`), shader stage / program creation
(`src/gl45/shader.rs`), vertex-array descriptors (`src/gl45/array.rs`,
`src/gl45/attrib.rs`), and the application run loop (`src/app.rs`).

Driver calls (`gl::*`) and the windowing library (`glfw`) are external
collaborators.  Where a claim depends on what the driver does, the
driver is modelled by its documented OpenGL semantics: `NamedBufferData`
stores the given bytes as the buffer's contents, `GetNamedBufferSubData`
reads back a byte range of those contents; driver-chosen outcomes
(object ids, compile/link/validate status, info logs) are parameters of
the modelled operations.  Everything else is translated directly from
the Rust source.

Rust `debug_assert!` is compiled in only when debug assertions are
enabled, so every modelled operation that contains one (and every
`#[cfg(debug_assertions)]` block) takes a `dbg` flag, the build's
`debug_assertions` setting.  A firing assertion, like a `panic!`, is
modelled as `Except.error` carrying the panic message.
-/

namespace Ren

/-- `BufferUsage` from `src/gl45/buffer.rs`. -/
inductive BufferUsage where
  | Stream
  | Static
  | Dynamic
  deriving DecidableEq, Repr

/-- `Buffer` from `src/gl45/buffer.rs`: the wrapped native id and the
`size` field recorded by `write`.  `store` is the driver-side byte
contents of the buffer object (the bytes last passed to
`gl::NamedBufferData`), carried here so that `read` can be given its
OpenGL semantics. -/
structure Buffer where
  handle : Nat
  size : Nat
  store : List Nat
  deriving DecidableEq, Repr

/-- `Buffer::create_multi` (`buffer.rs` lines 84–98): `gl::CreateBuffers`
fills an array with driver-chosen ids (`driverIds`), then each id is
checked by `debug_assert_ne!(handle, 0, "failed creating buffer")` and
wrapped with `size: 0`.  A fresh buffer has no contents. -/
def Buffer.create_multi (dbg : Bool) : List Nat → Except String (List Buffer)
  | [] => .ok []
  | h :: rest =>
    if dbg && h == 0 then .error "failed creating buffer"
    else
      match Buffer.create_multi dbg rest with
      | .error e => .error e
      | .ok bs => .ok ({ handle := h, size := 0, store := [] } :: bs)

/-- `Buffer::write` (`buffer.rs` lines 100–111): records
`data.len() * size_of::<T>()` as the new size and replaces the driver
contents via `gl::NamedBufferData`.  Modelled at byte granularity:
`data` is the byte serialization of the written slice, so its length is
exactly `data.len() * size_of::<T>()`. -/
def Buffer.write (b : Buffer) (_usage : BufferUsage) (data : List Nat) : Buffer :=
  { b with size := data.length, store := data }

/-- The panic message of `Buffer::read` (`buffer.rs` lines 122–127). -/
def readOobMsg (size endIdx : Nat) : String :=
  "index out of bounds: the size is " ++ toString size ++
    " but the end index is " ++ toString endIdx

/-- `Buffer::read` (`buffer.rs` lines 118–137) at byte granularity:
`readSize` is `data.len() * size_of::<T>()` for the destination slice,
and `offset` and `readSize` are `usize` values (each below `2 ^ 64` on a
64-bit target).  `let read_end = offset + read_size` is a `usize`
addition: with debug assertions (`dbg`) it panics on overflow, without
them it wraps modulo `2 ^ 64`.  The bounds check then panics (modelled
as `Except.error`) when `read_end` exceeds the recorded size, before
any driver call; otherwise `gl::GetNamedBufferSubData` fills the
destination with the byte range `[offset, offset + readSize)` of the
buffer contents (an offset at or beyond the contents yields no bytes,
as the driver rejects the range and writes nothing). -/
def Buffer.read (dbg : Bool) (b : Buffer) (offset readSize : Nat) :
    Except String (List Nat) :=
  if dbg && decide (2 ^ 64 ≤ offset + readSize) then
    .error "attempt to add with overflow"
  else if (offset + readSize) % 2 ^ 64 > b.size then
    .error (readOobMsg b.size ((offset + readSize) % 2 ^ 64))
  else
    .ok ((b.store.drop offset).take readSize)

/-- A buffer as produced and maintained by the crate's own operations:
the recorded `size` field agrees with the driver-side contents (`write`
sets both together, and a fresh buffer has size 0 and no contents). -/
def Buffer.wf (b : Buffer) : Prop :=
  b.size = b.store.length

instance (b : Buffer) : Decidable b.wf := by
  unfold Buffer.wf; infer_instance

/-- `ShaderStageKind` from `src/gl45/shader.rs`. -/
inductive ShaderStageKind where
  | Vertex
  | Fragment
  | Geometry
  | Compute
  deriving DecidableEq, Repr

/-- `ShaderStageKind::name` (`shader.rs` lines 30–37). -/
def ShaderStageKind.name : ShaderStageKind → String
  | .Vertex => "vertex"
  | .Fragment => "fragment"
  | .Geometry => "geometry"
  | .Compute => "compute"

/-- `ShaderStage` from `src/gl45/shader.rs`: native id plus stage kind. -/
structure ShaderStage where
  handle : Nat
  kind : ShaderStageKind
  deriving DecidableEq, Repr

/-- `ShaderStageError::Compile(RawGLHandle, ShaderStageKind, log)`
(`shader.rs` lines 420–424). -/
inductive ShaderStageError where
  | Compile (handle : Nat) (kind : ShaderStageKind) (log : String)
  deriving DecidableEq, Repr

/-- `ShaderStage::create` (`shader.rs` lines 103–116) followed by
`compile` (lines 118–160): `gl::CreateShader` yields `driverId`, checked
by `debug_assert_ne!(handle, 0, "failed creating {} shader stage", ...)`;
then the source is compiled, with the driver reporting `compileOk`
(COMPILE_STATUS) and `log` (the info log, absent when empty).  On
compile failure the error carries the raw id, the kind, and the log text
(or `"[no log]"`). -/
def ShaderStage.create (dbg : Bool) (driverId : Nat) (kind : ShaderStageKind)
    (compileOk : Bool) (log : Option String) :
    Except String (Except ShaderStageError ShaderStage) :=
  if dbg && driverId == 0 then
    .error ("failed creating " ++ kind.name ++ " shader stage")
  else if compileOk then
    .ok (.ok { handle := driverId, kind := kind })
  else
    .ok (.error (.Compile driverId kind (log.getD "[no log]")))

/-- The GL calls issued by `Shader::create` (`shader.rs`), recorded as a
trace. -/
inductive GLCmd where
  | attachShader (program shader : Nat)
  | detachShader (program shader : Nat)
  | bindFragDataLocation (program colorNumber : Nat) (name : String)
  | linkProgram (program : Nat)
  | validateProgram (program : Nat)
  deriving DecidableEq, Repr

/-- `ShaderError` (`shader.rs` lines 426–432). -/
inductive ShaderError where
  | Link (handle : Nat) (log : String)
  | Validation (handle : Nat) (log : String)
  deriving DecidableEq, Repr

/-- `Shader` from `src/gl45/shader.rs`: the linked program's native
id. -/
structure Shader where
  handle : Nat
  deriving DecidableEq, Repr

/-- `attach_shader` (`shader.rs` lines 332–338): two
`debug_assert_ne!` checks, then `gl::AttachShader`. -/
def attach_shader (dbg : Bool) (program shader : Nat) : Except String GLCmd :=
  if dbg && program == 0 then .error "attaching to invalid shader program handle"
  else if dbg && shader == 0 then .error "attaching invalid shader stage handle"
  else .ok (.attachShader program shader)

/-- `detach_shader` (`shader.rs` lines 340–348). -/
def detach_shader (dbg : Bool) (program shader : Nat) : Except String GLCmd :=
  if dbg && program == 0 then .error "detaching to invalid shader program handle"
  else if dbg && shader == 0 then .error "detaching invalid shader stage handle"
  else .ok (.detachShader program shader)

/-- `attach_shaders` (`shader.rs` lines 350–355): attach each stage
handle in order. -/
def attach_shaders (dbg : Bool) (program : Nat) : List Nat → Except String (List GLCmd)
  | [] => .ok []
  | s :: rest =>
    match attach_shader dbg program s with
    | .error e => .error e
    | .ok c =>
      match attach_shaders dbg program rest with
      | .error e => .error e
      | .ok cs => .ok (c :: cs)

/-- `detach_shaders` (`shader.rs` lines 357–362). -/
def detach_shaders (dbg : Bool) (program : Nat) : List Nat → Except String (List GLCmd)
  | [] => .ok []
  | s :: rest =>
    match detach_shader dbg program s with
    | .error e => .error e
    | .ok c =>
      match detach_shaders dbg program rest with
      | .error e => .error e
      | .ok cs => .ok (c :: cs)

/-- `Shader::create` (`shader.rs` lines 219–246): `gl::CreateProgram`
yields `progId`, checked by `debug_assert_ne!`; the stage handles are
attached; `init` runs `bind_data_locations` (a
`gl::BindFragDataLocation` call), then `link`, then — only when linking
succeeded (`init` uses `?`) — `validate`; the stages are then detached
regardless of the outcome, and only then is the result matched.  The
driver reports `linkOk` (LINK_STATUS), `validateOk` (VALIDATE_STATUS)
and the two info logs.  Returns the GL-call trace after the create call
together with the `Result`. -/
def Shader.create (dbg : Bool) (progId : Nat) (stages : List Nat)
    (linkOk validateOk : Bool) (linkLog validateLog : Option String) :
    Except String (List GLCmd × Except ShaderError Shader) :=
  if dbg && progId == 0 then .error "failed creating shader program"
  else
    match attach_shaders dbg progId stages with
    | .error e => .error e
    | .ok att =>
      let mid : List GLCmd :=
        [.bindFragDataLocation progId 0 "fragColor", .linkProgram progId]
          ++ (if linkOk then [.validateProgram progId] else [])
      let res : Except ShaderError Shader :=
        if linkOk then
          if validateOk then .ok { handle := progId }
          else .error (.Validation progId (validateLog.getD "[no log]"))
        else .error (.Link progId (linkLog.getD "[no log]"))
      match detach_shaders dbg progId stages with
      | .error e => .error e
      | .ok det => .ok (att ++ mid ++ det, res)

/-- The set of stage handles attached to a program after replaying a
GL-call trace, starting from `acc` (`gl::AttachShader` adds one
attachment, `gl::DetachShader` removes one). -/
def attachedAfter : List GLCmd → List Nat → List Nat
  | [], acc => acc
  | .attachShader _ s :: rest, acc => attachedAfter rest (acc ++ [s])
  | .detachShader _ s :: rest, acc => attachedAfter rest (acc.erase s)
  | _ :: rest, acc => attachedAfter rest acc

/-- `Texture` from `src/gl45/texture.rs`: native id and the fixed 2D
size. -/
structure Texture where
  handle : Nat
  size : Nat × Nat
  deriving DecidableEq, Repr

/-- The handle part of `Texture::create` (`texture.rs` lines 78–110):
`gl::CreateTextures` yields `driverId`, checked by
`debug_assert_ne!(handle, 0, "failed creating texture")`. -/
def Texture.create (dbg : Bool) (driverId : Nat) (size : Nat × Nat) :
    Except String Texture :=
  if dbg && driverId == 0 then .error "failed creating texture"
  else .ok { handle := driverId, size := size }

/-- `VertexArray` from `src/gl45/array.rs`. -/
structure VertexArray where
  handle : Nat
  deriving DecidableEq, Repr

/-- `VertexArray::create` (`array.rs` lines 114–124):
`gl::CreateVertexArrays` yields `driverId`, checked by
`debug_assert_ne!(handle, 0, "failed creating vertex array")`. -/
def VertexArray.create (dbg : Bool) (driverId : Nat) :
    Except String VertexArray :=
  if dbg && driverId == 0 then .error "failed creating vertex array"
  else .ok { handle := driverId }

/-- `AttribKind` from `src/gl45/attrib.rs`. -/
inductive AttribKind where
  | Float1
  | Float2
  | Float3
  | Float4
  deriving DecidableEq, Repr

/-- The component-count half of `AttribKind::gl_size_type`
(`attrib.rs` lines 18–25); the type half is always `gl::FLOAT`. -/
def AttribKind.gl_size : AttribKind → Nat
  | .Float1 => 1
  | .Float2 => 2
  | .Float3 => 3
  | .Float4 => 4

/-- `AttribFormat` (aliased `Attrib`) from `src/gl45/attrib.rs`. -/
structure AttribFormat where
  index : Nat
  kind : AttribKind
  offset : Nat
  deriving DecidableEq, Repr

/-- `AttribBinding` from `src/gl45/attrib.rs`. -/
structure AttribBinding where
  attrib_index : Nat
  buffer_binding_index : Nat
  deriving DecidableEq, Repr

/-- `AttribBindPoint` from `src/gl45/attrib.rs`. -/
structure AttribBindPoint where
  binding_index : Nat
  offset : Nat
  stride : Nat
  deriving DecidableEq, Repr

/-- The GL calls issued by `VertexArrayDesc::apply`, recorded as a
trace. -/
inductive VaoCmd where
  | vertexArrayVertexBuffer (vao bindingIndex buffer offset stride : Nat)
  | vertexArrayAttribBinding (vao attribIndex bufferBindingIndex : Nat)
  | enableVertexArrayAttrib (vao index : Nat)
  | vertexArrayAttribFormat (vao index size relativeOffset : Nat)
  deriving DecidableEq, Repr

/-- `AttribBindPoint::apply` (`attrib.rs` lines 119–128):
`gl::VertexArrayVertexBuffer`. -/
def AttribBindPoint.apply (bp : AttribBindPoint) (vao buffer : Nat) : VaoCmd :=
  .vertexArrayVertexBuffer vao bp.binding_index buffer bp.offset bp.stride

/-- `AttribBinding::apply` (`attrib.rs` lines 89–91):
`gl::VertexArrayAttribBinding`. -/
def AttribBinding.apply (b : AttribBinding) (vao : Nat) : VaoCmd :=
  .vertexArrayAttribBinding vao b.attrib_index b.buffer_binding_index

/-- `AttribFormat::enable` (`attrib.rs` lines 64–66):
`gl::EnableVertexArrayAttrib`. -/
def AttribFormat.enable (a : AttribFormat) (vao : Nat) : VaoCmd :=
  .enableVertexArrayAttrib vao a.index

/-- `AttribFormat::apply` (`attrib.rs` lines 57–61):
`gl::VertexArrayAttribFormat` with the component count from
`gl_size_type` and the relative offset. -/
def AttribFormat.apply (a : AttribFormat) (vao : Nat) : VaoCmd :=
  .vertexArrayAttribFormat vao a.index a.kind.gl_size a.offset

/-- `VertexArrayDesc` from `src/gl45/array.rs`; the buffers are
represented by their native handles. -/
structure VertexArrayDesc where
  buffers : List Nat
  bind_points : List AttribBindPoint
  bindings : List AttribBinding
  attribs : List AttribFormat
  deriving DecidableEq, Repr

/-- `VertexArrayDesc::new` (`array.rs` lines 21–28). -/
def VertexArrayDesc.new : VertexArrayDesc :=
  { buffers := [], bind_points := [], bindings := [], attribs := [] }

/-- `VertexArrayDesc::with_buffer` (`array.rs` lines 30–33): pushes at
the back. -/
def VertexArrayDesc.with_buffer (d : VertexArrayDesc) (buffer : Nat) : VertexArrayDesc :=
  { d with buffers := d.buffers ++ [buffer] }

/-- `VertexArrayDesc::with_bind_point` (`array.rs` lines 35–38). -/
def VertexArrayDesc.with_bind_point (d : VertexArrayDesc) (bp : AttribBindPoint) :
    VertexArrayDesc :=
  { d with bind_points := d.bind_points ++ [bp] }

/-- `VertexArrayDesc::with_binding` (`array.rs` lines 40–43). -/
def VertexArrayDesc.with_binding (d : VertexArrayDesc) (b : AttribBinding) :
    VertexArrayDesc :=
  { d with bindings := d.bindings ++ [b] }

/-- `VertexArrayDesc::with_attrib` (`array.rs` lines 45–48). -/
def VertexArrayDesc.with_attrib (d : VertexArrayDesc) (a : AttribFormat) :
    VertexArrayDesc :=
  { d with attribs := d.attribs ++ [a] }

/-- The first loop of `VertexArrayDesc::apply` (`array.rs` lines
51–54): enumerates `bind_points`, indexing `self.buffers[buffer_index]`
— which panics with Rust's index-out-of-bounds message when the index
exceeds the buffer list.  Returns the commands issued so far and
whether the loop panicked. -/
def VertexArrayDesc.bindLoop (bufs : List Nat) (vao : Nat) :
    List AttribBindPoint → Nat → List VaoCmd × Bool
  | [], _ => ([], false)
  | bp :: rest, i =>
    match bufs[i]? with
    | none => ([], true)
    | some b =>
      let (cs, p) := VertexArrayDesc.bindLoop bufs vao rest (i + 1)
      (bp.apply vao b :: cs, p)

/-- `VertexArrayDesc::apply` (`array.rs` lines 50–65): first the
bind-point loop (which may panic on indexing), then one
`AttribBinding::apply` per accumulated binding, then per attribute
`enable` followed by `apply`.  Returns the commands issued and whether
the indexing panicked (a panic aborts before the later loops run). -/
def VertexArrayDesc.apply (d : VertexArrayDesc) (vao : Nat) : List VaoCmd × Bool :=
  let (binds, panicked) := VertexArrayDesc.bindLoop d.buffers vao d.bind_points 0
  if panicked then (binds, true)
  else
    (binds ++ d.bindings.map (fun b => b.apply vao)
      ++ d.attribs.flatMap (fun a => [a.enable vao, a.apply vao]), false)

/-- `glfw::Key`, restricted to what `_run_app_with` distinguishes:
`Escape` versus any other key. -/
inductive Key where
  | Escape
  | Other (code : Nat)
  deriving DecidableEq, Repr

/-- `glfw::Action` for key events. -/
inductive KeyAction where
  | Press
  | Release
  | Repeat
  deriving DecidableEq, Repr

/-- `glfw::WindowEvent`, restricted to the constructors
`_run_app_with` matches on; every other event kind (mouse button,
cursor position, scroll, …) is `Other`, which the loop treats
uniformly via its `_` arm. -/
inductive WindowEvent where
  | FramebufferSize (w h : Int)
  | Key (k : Key) (scancode : Int) (action : KeyAction) (mods : Nat)
  | Close
  | Other (tag : Nat)
  deriving DecidableEq, Repr

/-- The observable actions of one run of the `_run_app_with` loop body
(`app.rs` lines 156–190). -/
inductive AppAction where
  | pollEvents
  | glViewport (x y w h : Int)
  | onEvent (e : WindowEvent)
  | update
  | draw
  | swapBuffers
  | drainGlErrors
  deriving DecidableEq, Repr

/-- The event-dispatch `for` loop of `_run_app_with` (`app.rs` lines
159–175): a resize event issues `gl::Viewport(0, 0, w, h)` and falls
through to `on_event`; an escape-key press — only when the build has
debug assertions, as the arm is `#[cfg(debug_assertions)]` — or a close
event executes `break 'main`, ending the dispatch (and the whole loop)
at once; every other event falls through to `on_event`.  Returns the
actions performed and whether `break 'main` ran. -/
def dispatchEvents (dbg : Bool) : List WindowEvent → List AppAction × Bool
  | [] => ([], false)
  | e :: rest =>
    match e with
    | .FramebufferSize w h =>
      let (acts, brk) := dispatchEvents dbg rest
      (.glViewport 0 0 w h :: .onEvent (.FramebufferSize w h) :: acts, brk)
    | .Key .Escape sc .Press mods =>
      if dbg then ([], true)
      else
        let (acts, brk) := dispatchEvents dbg rest
        (.onEvent (.Key .Escape sc .Press mods) :: acts, brk)
    | .Close => ([], true)
    | e' =>
      let (acts, brk) := dispatchEvents dbg rest
      (.onEvent e' :: acts, brk)

/-- Whether an event hits a `break 'main` arm of the dispatch match:
`WindowEvent::Close` always, an escape-key press only under
`#[cfg(debug_assertions)]`. -/
def isCloseTrigger (dbg : Bool) : WindowEvent → Bool
  | .Key .Escape _ .Press _ => dbg
  | .Close => true
  | _ => false

/-- The built-in handling the dispatch match applies to an event before
forwarding it: resize events resize the viewport; nothing else. -/
def builtinActs : WindowEvent → List AppAction
  | .FramebufferSize w h => [.glViewport 0 0 w h]
  | _ => []

/-- One iteration of the `'main` loop of `_run_app_with` (`app.rs`
lines 156–190): poll, dispatch the polled events, and — unless
`break 'main` ran — update, draw, swap buffers, and (debug builds
only) drain `gl::GetError`. -/
def loopIteration (dbg : Bool) (events : List WindowEvent) : List AppAction × Bool :=
  let (acts, brk) := dispatchEvents dbg events
  if brk then (.pollEvents :: acts, true)
  else
    (.pollEvents :: acts ++ [.update, .draw, .swapBuffers]
      ++ (if dbg then [.drainGlErrors] else []), false)

/-- The `'main` loop of `_run_app_with`: `while !wnd.should_close()`.
The external world supplies, for each prospective iteration, the value
`wnd.should_close()` reads and the events `poll_events` makes
available; the trace is observed over that finite window (an exhausted
world ends the observation). -/
def runLoop (dbg : Bool) : List (Bool × List WindowEvent) → List AppAction
  | [] => []
  | (shouldClose, events) :: rest =>
    if shouldClose then []
    else
      let (acts, brk) := loopIteration dbg events
      if brk then acts
      else acts ++ runLoop dbg rest

/-- The crate's package name, `env!("CARGO_PKG_NAME")`. -/
def cargoPkgName : String := "ren"

/-- `AppOptions` (`app.rs` lines 29–35). -/
structure AppOptions where
  title : String
  window_size : Nat × Nat
  gl_version : Nat × Nat
  gl_debug_output : Bool
  deriving DecidableEq, Repr

/-- `AppOptions::default` (`app.rs` lines 37–53): title is the package
name, size 856×482, GL 4.5, and debug output on exactly in
debug-assertion builds (`cfg!(debug_assertions)`, the `dbg`
parameter). -/
def AppOptions.default (dbg : Bool) : AppOptions :=
  { title := cargoPkgName
    window_size := (856, 482)
    gl_version := (4, 5)
    gl_debug_output := dbg }

/-- `is_debug_output_supported` (`src/debug_output.rs` lines 8–10). -/
def is_debug_output_supported : Nat × Nat → Bool
  | (major, minor) => (major == 4 && minor >= 3) || major > 4

/-- The observable actions of the one-time setup `init` (`app.rs`
lines 245–293). -/
inductive SetupAct where
  | windowHintContextVersion (major minor : Nat)
  | windowHintProfileCore
  | windowHintForwardCompat
  | windowHintDebugContext (enabled : Bool)
  | windowHintVisible (visible : Bool)
  | createWindow (w h : Nat) (title : String)
  | setEventPolling
  | centerWindow
  | makeCurrent
  | loadGlSymbols
  | initDebugOutput (enabled : Bool)
  | showWindow
  deriving DecidableEq, Repr

/-- `init` (`app.rs` lines 245–293): the window hints from the options,
then `create_window(1280, 720, env!("CARGO_PKG_NAME"), Windowed)`, event
polling setup, centering, making the context current, loading GL
symbols, optionally enabling debug output (`debugOutputOk` is whether
the driver-side `init_debug_output` succeeded), and finally
`wnd.show()` when `visible` is requested. -/
def init (opts : AppOptions) (visible : Bool) (debugOutputOk : Bool) : List SetupAct :=
  [.windowHintContextVersion opts.gl_version.1 opts.gl_version.2,
   .windowHintProfileCore,
   .windowHintForwardCompat,
   .windowHintDebugContext (opts.gl_debug_output && is_debug_output_supported opts.gl_version),
   .windowHintVisible false,
   .createWindow 1280 720 cargoPkgName,
   .setEventPolling,
   .centerWindow,
   .makeCurrent,
   .loadGlSymbols]
  ++ (if opts.gl_debug_output then
        [.initDebugOutput (is_debug_output_supported opts.gl_version && debugOutputOk)]
      else [])
  ++ (if visible then [.showWindow] else [])

/-- The observable actions of a whole `_run_app_with` run: the setup
actions, the `RenderingContext::new()` call, the user `init` callback
invocation, then the per-frame loop actions. -/
inductive RunAct where
  | setup (a : SetupAct)
  | ctxNew
  | userInit
  | frame (a : AppAction)
  deriving DecidableEq, Repr

/-- `_run_app_with` (`app.rs` lines 147–193): `init(opts, true)` (the
window is shown inside it), `RenderingContext::new()`, then
`f.init(&mut ctx).map_err(Into::into)?` — an init error returns at once
with the boxed error (`initResult` is the user callback's outcome, its
error already converted to the boxed-error message) — and on success
the `'main` loop over `world`.  Returns the action trace and the
run's `Result`. -/
def _run_app_with (dbg : Bool) (opts : AppOptions) (debugOutputOk : Bool)
    (initResult : Except String Unit) (world : List (Bool × List WindowEvent)) :
    List RunAct × Except String Unit :=
  let setupActs := (init opts true debugOutputOk).map RunAct.setup
  match initResult with
  | .error e => (setupActs ++ [.ctxNew, .userInit], .error e)
  | .ok () =>
    (setupActs ++ [.ctxNew, .userInit] ++ (runLoop dbg world).map RunAct.frame, .ok ())

end Ren

open Ren

/-- C4 counterexample: the `usize` sum `offset + read_size` wraps when
debug assertions are off.  At `offset = usize::MAX` with a two-byte
destination, `read_end` wraps to 1, the out-of-bounds check passes on a
3-byte buffer, and the call returns without panicking — and without
producing the requested two bytes — although
`offset + byte-length(data)` far exceeds the recorded size. -/
theorem buffer_read_overflow_counterexample :
    Buffer.read false (Buffer.mk 1 3 [7, 8, 9]) (2 ^ 64 - 1) 2 = .ok [] ∧
    (Buffer.mk 1 3 [7, 8, 9]).size < 2 ^ 64 - 1 + 2 := by
  refine ⟨?_, by norm_num⟩
  have hmod : (2 ^ 64 - 1 + 2) % 2 ^ 64 = 1 := by norm_num
  simp only [Buffer.read, Bool.false_and, Bool.false_eq_true, if_false, hmod]
  rw [if_neg (by norm_num)]
  rw [List.drop_of_length_le (by norm_num)]
  rfl

/-- C4 (amended): the bound check of `read` is computed in `usize`.
For requests whose sum does not overflow
(`offset + byte-length < 2 ^ 64`) the original contract holds in both
builds: the call panics exactly when the sum exceeds the recorded size,
and an in-bounds call returns a full, never-truncated read of
`byte-length` bytes.  An overflowing sum panics in debug builds
("attempt to add with overflow"); without debug assertions it wraps,
and a wrapped `read_end` within bounds passes the check silently (see
the counterexample). -/
theorem buffer_read_bounds (b : Buffer) (hwf : b.wf) (dbg : Bool)
    (offset readSize : Nat) :
    (offset + readSize < 2 ^ 64 →
      ((b.size < offset + readSize →
        Buffer.read dbg b offset readSize =
          .error (readOobMsg b.size (offset + readSize))) ∧
      (offset + readSize ≤ b.size →
        ∃ out, Buffer.read dbg b offset readSize = .ok out ∧
          out.length = readSize))) ∧
    (2 ^ 64 ≤ offset + readSize →
      Buffer.read true b offset readSize =
        .error "attempt to add with overflow") := by
  constructor
  · intro hlt
    have hnof : (dbg && decide (2 ^ 64 ≤ offset + readSize)) ≠ true := by
      have hd : decide (2 ^ 64 ≤ offset + readSize) = false :=
        decide_eq_false (Nat.not_le.mpr hlt)
      intro hcontra
      rw [hd, Bool.and_false] at hcontra
      exact Bool.false_ne_true hcontra
    have hmod : (offset + readSize) % 2 ^ 64 = offset + readSize :=
      Nat.mod_eq_of_lt hlt
    constructor
    · intro h
      simp only [Buffer.read, hmod, gt_iff_lt]
      rw [if_neg hnof, if_pos h]
    · intro h
      refine ⟨(b.store.drop offset).take readSize, ?_, ?_⟩
      · simp only [Buffer.read, hmod, gt_iff_lt]
        rw [if_neg hnof, if_neg (by omega)]
      · rw [List.length_take, List.length_drop]
        rw [Buffer.wf] at hwf
        omega
  · intro hge
    simp only [Buffer.read]
    rw [if_pos (by rw [decide_eq_true hge]; rfl)]

/-- Witness for `buffer_read_bounds` at concrete non-overflowing
out-of-bounds and overflowing calls. -/
theorem buffer_read_bounds_witness :
    Buffer.read false (Buffer.mk 1 3 [7, 8, 9]) 2 2 = .error (readOobMsg 3 4) ∧
    Buffer.read true (Buffer.mk 1 3 [7, 8, 9]) (2 ^ 64 - 1) 2 =
      .error "attempt to add with overflow" := by
  have h := buffer_read_bounds (Buffer.mk 1 3 [7, 8, 9]) (by decide) false 2 2
  have h' := buffer_read_bounds (Buffer.mk 1 3 [7, 8, 9]) (by decide) true
    (2 ^ 64 - 1) 2
  exact ⟨(h.1 (by norm_num)).1 (by decide), h'.2 (by norm_num)⟩

/-- C6: for every buffer, usage hint, written byte sequence and every
in-bounds `(offset, length)`, `write(usage, data)` followed by
`read(offset, out)` yields exactly the bytes
`data[offset .. offset+length]` (element `i` of the output is byte
`offset + i` of the written data, and the output has full length
`length`); and after the write, `size()` returns the byte length of the
written data. -/
theorem buffer_write_read_roundtrip (b : Buffer) (usage : BufferUsage) (dbg : Bool)
    (data : List Nat) (offset len : Nat) (h : offset + len ≤ data.length)
    (hlen : data.length < 2 ^ 64) :
    (b.write usage data).size = data.length ∧
    Buffer.read dbg (b.write usage data) offset len =
      .ok ((data.drop offset).take len) ∧
    ((data.drop offset).take len).length = len ∧
    (∀ i, i < len → ((data.drop offset).take len)[i]? = data[offset + i]?) := by
  have hlt : offset + len < 2 ^ 64 := by omega
  have hmod : (offset + len) % 2 ^ 64 = offset + len := Nat.mod_eq_of_lt hlt
  refine ⟨rfl, ?_, ?_, ?_⟩
  · have hd : decide (2 ^ 64 ≤ offset + len) = false :=
      decide_eq_false (Nat.not_le.mpr hlt)
    have hnof : (dbg && decide (2 ^ 64 ≤ offset + len)) ≠ true := by
      intro hcontra
      rw [hd, Bool.and_false] at hcontra
      exact Bool.false_ne_true hcontra
    simp only [Buffer.read, Buffer.write, hmod, gt_iff_lt]
    rw [if_neg hnof, if_neg (by omega)]
  · rw [List.length_take, List.length_drop]
    omega
  · intro i hi
    rw [List.getElem?_take, if_pos hi, List.getElem?_drop]

/-- Witness for `buffer_write_read_roundtrip` at a concrete write/read
in a debug-assertion build. -/
theorem buffer_write_read_roundtrip_witness :
    Buffer.read true ((Buffer.mk 1 0 []).write .Dynamic [3, 1, 4, 1, 5]) 1 3 =
      .ok [1, 4, 1] := by
  have h := buffer_write_read_roundtrip (Buffer.mk 1 0 []) .Dynamic true
    [3, 1, 4, 1, 5] 1 3 (by decide) (by norm_num)
  rw [h.2.1]
  rfl

/-- C5 counterexample: the zero-id check is `debug_assert_ne!`, which is
compiled out when debug assertions are off.  In such a build,
`Buffer::create_multi` handed the id 0 by the driver raises no fatal
assertion and returns a handle whose native id is 0 — refuting both
halves of the claim at this input. -/
theorem create_zero_id_counterexample :
    Buffer.create_multi false [0] = .ok [{ handle := 0, size := 0, store := [] }] ∧
    ¬ (∀ bs, Buffer.create_multi false [0] = .ok bs → ∀ b ∈ bs, b.handle ≠ 0) := by
  refine ⟨rfl, fun h => ?_⟩
  exact h [{ handle := 0, size := 0, store := [] }] rfl
    { handle := 0, size := 0, store := [] } (by simp) rfl

/-- C5 (amended): the zero-id check in every create operation is a
`debug_assert_ne!`, so it fires only in builds with debug assertions
enabled.  In such builds a zero driver id makes buffer, shader-stage,
shader-program, texture and vertex-array creation fail with the fatal
assertion, and any buffer list returned without an assertion carries
only nonzero ids; in release builds the check is compiled out (see the
counterexample). -/
theorem create_zero_id_debug_assert (ids : List Nat) (sid pid tid vid : Nat)
    (kind : ShaderStageKind) (compileOk : Bool) (clog : Option String)
    (stages : List Nat) (linkOk validateOk : Bool) (llog vlog : Option String)
    (tsize : Nat × Nat) :
    (0 ∈ ids → Buffer.create_multi true ids = .error "failed creating buffer") ∧
    (∀ bs, Buffer.create_multi true ids = .ok bs → ∀ b ∈ bs, b.handle ≠ 0) ∧
    (sid = 0 → ShaderStage.create true sid kind compileOk clog =
      .error ("failed creating " ++ kind.name ++ " shader stage")) ∧
    (pid = 0 → Shader.create true pid stages linkOk validateOk llog vlog =
      .error "failed creating shader program") ∧
    (tid = 0 → Texture.create true tid tsize = .error "failed creating texture") ∧
    (vid = 0 → VertexArray.create true vid = .error "failed creating vertex array") := by
  refine ⟨?_, ?_, ?_, ?_, ?_, ?_⟩
  · intro hmem
    induction ids with
    | nil => simp at hmem
    | cons h rest ih =>
      by_cases hz : h = 0
      · subst hz
        simp [Buffer.create_multi]
      · rw [List.mem_cons] at hmem
        rcases hmem with hmem | hmem
        · exact absurd hmem.symm hz
        · simp only [Buffer.create_multi, Bool.true_and]
          rw [if_neg (by simpa using hz), ih hmem]
  · intro bs hok b hb
    induction ids generalizing bs with
    | nil =>
      simp only [Buffer.create_multi] at hok
      cases hok
      simp at hb
    | cons h rest ih =>
      simp only [Buffer.create_multi, Bool.true_and] at hok
      by_cases hz : h = 0
      · rw [if_pos (by simpa using hz)] at hok
        cases hok
      · rw [if_neg (by simpa using hz)] at hok
        cases hrec : Buffer.create_multi true rest with
        | error e => rw [hrec] at hok; cases hok
        | ok bs' =>
          rw [hrec] at hok
          cases hok
          rw [List.mem_cons] at hb
          rcases hb with hb | hb
          · subst hb; simpa using hz
          · exact ih bs' hrec hb
  · intro hz
    subst hz
    simp [ShaderStage.create]
  · intro hz
    subst hz
    simp [Shader.create]
  · intro hz
    subst hz
    simp [Texture.create]
  · intro hz
    subst hz
    simp [VertexArray.create]

/-- Witness for `create_zero_id_debug_assert` at concrete zero ids. -/
theorem create_zero_id_debug_assert_witness :
    Buffer.create_multi true [0] = .error "failed creating buffer" ∧
    ShaderStage.create true 0 .Vertex true none =
      .error "failed creating vertex shader stage" :=
  ⟨(create_zero_id_debug_assert [0] 0 0 0 0 .Vertex true none [] true true
      none none (0, 0)).1 (by decide),
   (create_zero_id_debug_assert [0] 0 0 0 0 .Vertex true none [] true true
      none none (0, 0)).2.2.1 rfl⟩

theorem attach_shaders_ok (dbg : Bool) (p : Nat) (stages : List Nat)
    (hp : p ≠ 0) (hs : ∀ s ∈ stages, s ≠ 0) :
    attach_shaders dbg p stages = .ok (stages.map (GLCmd.attachShader p)) := by
  induction stages with
  | nil => rfl
  | cons s rest ih =>
    have hs0 : s ≠ 0 := hs s (by simp)
    simp only [attach_shaders, attach_shader]
    rw [if_neg (by simp [hp]), if_neg (by simp [hs0]),
      ih (fun x hx => hs x (List.mem_cons_of_mem _ hx))]
    rfl

theorem detach_shaders_ok (dbg : Bool) (p : Nat) (stages : List Nat)
    (hp : p ≠ 0) (hs : ∀ s ∈ stages, s ≠ 0) :
    detach_shaders dbg p stages = .ok (stages.map (GLCmd.detachShader p)) := by
  induction stages with
  | nil => rfl
  | cons s rest ih =>
    have hs0 : s ≠ 0 := hs s (by simp)
    simp only [detach_shaders, detach_shader]
    rw [if_neg (by simp [hp]), if_neg (by simp [hs0]),
      ih (fun x hx => hs x (List.mem_cons_of_mem _ hx))]
    rfl

theorem attachedAfter_append (l₁ l₂ : List GLCmd) (acc : List Nat) :
    attachedAfter (l₁ ++ l₂) acc = attachedAfter l₂ (attachedAfter l₁ acc) := by
  induction l₁ generalizing acc with
  | nil => rfl
  | cons c rest ih => cases c <;> simp [attachedAfter, ih]

theorem attachedAfter_attach_map (p : Nat) (stages acc : List Nat) :
    attachedAfter (stages.map (GLCmd.attachShader p)) acc = acc ++ stages := by
  induction stages generalizing acc with
  | nil => simp [attachedAfter]
  | cons s rest ih => simp [attachedAfter, ih]

theorem attachedAfter_detach_self (p : Nat) (stages : List Nat) :
    attachedAfter (stages.map (GLCmd.detachShader p)) stages = [] := by
  induction stages with
  | nil => rfl
  | cons s rest ih =>
    simp only [List.map_cons, attachedAfter, List.erase_cons_head]
    exact ih

/-- C7: for every stage list and every link/validate outcome (given
nonzero handles, which every creation path guarantees under its own
assertion), `Shader::create` attaches each stage before the link call
and detaches it after the link-and-validate attempt, in success and in
failure alike; replaying the trace leaves no stage attached when
`create` returns. -/
theorem shader_create_attach_detach (dbg : Bool) (progId : Nat) (stages : List Nat)
    (linkOk validateOk : Bool) (linkLog validateLog : Option String)
    (hp : progId ≠ 0) (hs : ∀ s ∈ stages, s ≠ 0) :
    ∃ trace res,
      Shader.create dbg progId stages linkOk validateOk linkLog validateLog =
        .ok (trace, res) ∧
      (∀ s ∈ stages, ∃ l₁ l₂, trace = l₁ ++ GLCmd.linkProgram progId :: l₂ ∧
        GLCmd.attachShader progId s ∈ l₁ ∧ GLCmd.detachShader progId s ∈ l₂) ∧
      attachedAfter trace [] = [] := by
  refine ⟨stages.map (GLCmd.attachShader progId)
      ++ ([.bindFragDataLocation progId 0 "fragColor", .linkProgram progId]
        ++ (if linkOk then [.validateProgram progId] else []))
      ++ stages.map (GLCmd.detachShader progId),
    (if linkOk then
      if validateOk then .ok { handle := progId }
      else .error (.Validation progId (validateLog.getD "[no log]"))
    else .error (.Link progId (linkLog.getD "[no log]"))), ?_, ?_, ?_⟩
  · simp only [Shader.create]
    rw [if_neg (by simp [hp]), attach_shaders_ok dbg progId stages hp hs,
      detach_shaders_ok dbg progId stages hp hs]
  · intro s hsmem
    refine ⟨stages.map (GLCmd.attachShader progId)
        ++ [.bindFragDataLocation progId 0 "fragColor"],
      (if linkOk then [GLCmd.validateProgram progId] else [])
        ++ stages.map (GLCmd.detachShader progId), ?_, ?_, ?_⟩
    · simp
    · exact List.mem_append_left _ (List.mem_map_of_mem _ hsmem)
    · exact List.mem_append_right _ (List.mem_map_of_mem _ hsmem)
  · rw [attachedAfter_append, attachedAfter_append,
      attachedAfter_attach_map progId stages []]
    simp only [List.nil_append]
    cases linkOk <;>
      simp only [if_pos, if_neg, Bool.false_eq_true, not_false_iff, attachedAfter] <;>
      exact attachedAfter_detach_self progId stages

/-- Witness for `shader_create_attach_detach`: the trace of a concrete
failing link with two stages leaves nothing attached. -/
theorem shader_create_attach_detach_witness :
    attachedAfter [GLCmd.attachShader 1 2, .attachShader 1 3,
      .bindFragDataLocation 1 0 "fragColor", .linkProgram 1,
      .detachShader 1 2, .detachShader 1 3] [] = [] := by
  obtain ⟨trace, res, hok, -, hempty⟩ :=
    shader_create_attach_detach false 1 [2, 3] false true none none
      (by decide) (by decide)
  have hid : (Except.ok (trace, res) :
      Except String (List GLCmd × Except ShaderError Shader)) =
      .ok ([GLCmd.attachShader 1 2, .attachShader 1 3,
        .bindFragDataLocation 1 0 "fragColor", .linkProgram 1,
        .detachShader 1 2, .detachShader 1 3],
        .error (.Link 1 "[no log]")) := hok.symm.trans rfl
  rw [Except.ok.injEq, Prod.mk.injEq] at hid
  rw [← hid.1]
  exact hempty

theorem bindLoop_eq_zip (vao : Nat) (bps : List AttribBindPoint)
    (bufs : List Nat) (i : Nat) :
    VertexArrayDesc.bindLoop bufs vao bps i =
      ((bps.zip (bufs.drop i)).map (fun p => p.1.apply vao p.2),
        decide ((bufs.drop i).length < bps.length)) := by
  induction bps generalizing i with
  | nil => simp [VertexArrayDesc.bindLoop]
  | cons bp rest ih =>
    simp only [VertexArrayDesc.bindLoop]
    cases hbi : bufs[i]? with
    | none =>
      have hlen : bufs.length ≤ i := List.getElem?_eq_none_iff.mp hbi
      rw [List.drop_of_length_le hlen]
      simp
    | some b =>
      obtain ⟨hlt, hget⟩ := List.getElem?_eq_some_iff.mp hbi
      have hdrop : bufs.drop i = b :: bufs.drop (i + 1) := by
        rw [List.drop_eq_getElem_cons hlt, hget]
      rw [ih (i + 1), hdrop]
      simp only [List.zip_cons_cons, List.map_cons, List.length_cons, Prod.mk.injEq]
      refine ⟨trivial, ?_⟩
      rw [decide_eq_decide]
      omega

/-- C9: for every descriptor, `VertexArrayDesc::apply` (when its
indexing does not panic, i.e. there are at least as many buffers as
bind-point specs) issues its device calls as three consecutive
segments: first one buffer binding per bind-point spec (each spec paired
with its positional buffer), then one attribute→binding wiring per
accumulated binding, and only then, per attribute, the enable followed
by the format call — so no attribute is enabled or configured before
every buffer binding and every binding assignment has been issued. -/
theorem vertex_array_apply_order (d : VertexArrayDesc) (vao : Nat)
    (h : d.bind_points.length ≤ d.buffers.length) :
    d.apply vao =
      ((d.bind_points.zip d.buffers).map (fun p => p.1.apply vao p.2)
        ++ d.bindings.map (fun b => b.apply vao)
        ++ d.attribs.flatMap (fun a => [a.enable vao, a.apply vao]), false) := by
  simp only [VertexArrayDesc.apply, bindLoop_eq_zip, List.drop_zero]
  rw [if_neg (by simp; omega)]

/-- Witness for `vertex_array_apply_order` on a concrete descriptor
with one buffer, one bind point, one binding and one attribute. -/
theorem vertex_array_apply_order_witness :
    VertexArrayDesc.apply
      { buffers := [5], bind_points := [{ binding_index := 0, offset := 0, stride := 16 }],
        bindings := [{ attrib_index := 0, buffer_binding_index := 0 }],
        attribs := [{ index := 0, kind := .Float2, offset := 0 }] } 7 =
      ([.vertexArrayVertexBuffer 7 0 5 0 16, .vertexArrayAttribBinding 7 0 0,
        .enableVertexArrayAttrib 7 0, .vertexArrayAttribFormat 7 0 2 0], false) := by
  rw [vertex_array_apply_order _ 7 (by decide)]
  rfl

/-- C10: `apply` pairs the i-th bind-point spec with the i-th buffer by
position; the loop panics exactly when there are more bind-point specs
than buffers, and in that case the commands issued are exactly the
bindings of the paired prefix (one per buffer) — none for the excess
specs; buffers beyond the number of bind-point specs get no binding of
their own (the command list pairs only zipped positions). -/
theorem vertex_array_bind_pairing (d : VertexArrayDesc) (vao : Nat) :
    ((d.apply vao).2 = decide (d.buffers.length < d.bind_points.length)) ∧
    (∀ i, ∀ hi : i < d.bind_points.length, ∀ hj : i < d.buffers.length,
      (d.apply vao).1[i]? = some ((d.bind_points[i]).apply vao (d.buffers[i]))) ∧
    (d.buffers.length < d.bind_points.length →
      (d.apply vao).1 =
        ((d.bind_points.take d.buffers.length).zip d.buffers).map
          (fun p => p.1.apply vao p.2) ∧
      (d.apply vao).1.length = d.buffers.length) := by
  have hzlen : (d.bind_points.zip d.buffers).length =
      min d.bind_points.length d.buffers.length := List.length_zip ..
  refine ⟨?_, ?_, ?_⟩
  · simp only [VertexArrayDesc.apply, bindLoop_eq_zip, List.drop_zero]
    by_cases hlt : d.buffers.length < d.bind_points.length
    · rw [if_pos (by simp [hlt])]
      simp [hlt]
    · rw [if_neg (by simp [hlt])]
      simp [hlt]
  · intro i hi hj
    have hiz : i < (d.bind_points.zip d.buffers).length := by omega
    have hfirst : (d.apply vao).1[i]? =
        ((d.bind_points.zip d.buffers).map (fun p => p.1.apply vao p.2))[i]? := by
      simp only [VertexArrayDesc.apply, bindLoop_eq_zip, List.drop_zero]
      by_cases hlt : d.buffers.length < d.bind_points.length
      · rw [if_pos (by simp [hlt])]
      · rw [if_neg (by simp [hlt])]
        rw [List.append_assoc, List.getElem?_append_left (by simpa using hiz)]
    rw [hfirst, List.getElem?_eq_getElem (by simpa using hiz)]
    simp [List.getElem_zip]
  · intro hlt
    have htake : d.bind_points.zip d.buffers =
        (d.bind_points.take d.buffers.length).zip d.buffers := by
      rw [List.zip_eq_zip_take_min]
      rw [Nat.min_eq_right (by omega), List.take_length]
    constructor
    · simp only [VertexArrayDesc.apply, bindLoop_eq_zip, List.drop_zero]
      rw [if_pos (by simp [hlt])]
      rw [htake]
    · simp only [VertexArrayDesc.apply, bindLoop_eq_zip, List.drop_zero]
      rw [if_pos (by simp [hlt])]
      simp only [List.length_map]
      omega

/-- Witness for `vertex_array_bind_pairing`: two bind-point specs but
one buffer — the single issued binding pairs spec 0 with buffer 9, the
loop panics, and no command is issued for the excess spec. -/
theorem vertex_array_bind_pairing_witness :
    (VertexArrayDesc.apply
      { buffers := [9],
        bind_points := [{ binding_index := 0, offset := 0, stride := 8 },
          { binding_index := 1, offset := 0, stride := 8 }],
        bindings := [], attribs := [] } 4).2 = true ∧
    (VertexArrayDesc.apply
      { buffers := [9],
        bind_points := [{ binding_index := 0, offset := 0, stride := 8 },
          { binding_index := 1, offset := 0, stride := 8 }],
        bindings := [], attribs := [] } 4).1 =
      [.vertexArrayVertexBuffer 4 0 9 0 8] := by
  have h := vertex_array_bind_pairing
    { buffers := [9],
      bind_points := [{ binding_index := 0, offset := 0, stride := 8 },
        { binding_index := 1, offset := 0, stride := 8 }],
      bindings := [], attribs := [] } 4
  refine ⟨by rw [h.1]; decide, ?_⟩
  rw [(h.2.2 (by decide)).1]
  rfl

theorem dispatchEvents_eq (dbg : Bool) (evts : List WindowEvent) :
    dispatchEvents dbg evts =
      ((evts.takeWhile (fun e => !isCloseTrigger dbg e)).flatMap
        (fun e => builtinActs e ++ [.onEvent e]),
       evts.any (isCloseTrigger dbg)) := by
  induction evts with
  | nil => rfl
  | cons e rest ih =>
    cases e with
    | FramebufferSize w h =>
      simp [dispatchEvents, isCloseTrigger, builtinActs, ih, List.takeWhile_cons]
    | Key k sc a mods =>
      cases k with
      | Escape =>
        cases a with
        | Press =>
          cases dbg with
          | true => simp [dispatchEvents, isCloseTrigger]
          | false =>
            simp [dispatchEvents, isCloseTrigger, builtinActs, ih, List.takeWhile_cons]
        | Release =>
          simp [dispatchEvents, isCloseTrigger, builtinActs, ih, List.takeWhile_cons]
        | Repeat =>
          simp [dispatchEvents, isCloseTrigger, builtinActs, ih, List.takeWhile_cons]
      | Other c =>
        cases a <;>
          simp [dispatchEvents, isCloseTrigger, builtinActs, ih, List.takeWhile_cons]
    | Close => simp [dispatchEvents, isCloseTrigger]
    | Other t =>
      simp [dispatchEvents, isCloseTrigger, builtinActs, ih, List.takeWhile_cons]

theorem dispatch_acts_shape (dbg : Bool) (evts : List WindowEvent) :
    ∀ a ∈ (dispatchEvents dbg evts).1,
      (∃ w h, a = .glViewport 0 0 w h) ∨ ∃ e, a = .onEvent e := by
  intro a ha
  rw [dispatchEvents_eq] at ha
  obtain ⟨e, -, hin⟩ := List.mem_flatMap.mp ha
  rcases List.mem_append.mp hin with hb | hb
  · cases e <;> simp [builtinActs] at hb
    exact Or.inl ⟨_, _, hb⟩
  · exact Or.inr ⟨e, by simpa using hb⟩

/-- C1 counterexample: a run whose single iteration polls exactly one
close-request event.  `break 'main` exits the loop at once: the trace of
the whole run is just the poll — the iteration's update, draw and
buffer swap never execute, contradicting the claim that the iteration
is always finished. -/
theorem close_skips_frame_counterexample :
    runLoop false [(false, [WindowEvent.Close])] = [AppAction.pollEvents] ∧
    AppAction.update ∉ runLoop false [(false, [WindowEvent.Close])] ∧
    AppAction.draw ∉ runLoop false [(false, [WindowEvent.Close])] ∧
    AppAction.swapBuffers ∉ runLoop false [(false, [WindowEvent.Close])] := by
  decide

/-- C1 (amended): when a close-request event — or, in debug builds, an
escape-key press — is dispatched during an iteration, `break 'main`
terminates the loop at that point: the iteration's remaining events,
its update and draw callbacks, and its buffer swap are all skipped, and
no later iteration runs.  The run's remaining trace is exactly the poll
followed by the actions dispatched before the break. -/
theorem close_exits_loop_immediately (dbg : Bool) (evts : List WindowEvent)
    (rest : List (Bool × List WindowEvent))
    (h : evts.any (isCloseTrigger dbg) = true) :
    runLoop dbg ((false, evts) :: rest) =
      .pollEvents :: (dispatchEvents dbg evts).1 ∧
    ∀ a ∈ runLoop dbg ((false, evts) :: rest),
      a ≠ .update ∧ a ≠ .draw ∧ a ≠ .swapBuffers := by
  have hsnd : (dispatchEvents dbg evts).2 = true := by
    rw [dispatchEvents_eq]; exact h
  have hrun : runLoop dbg ((false, evts) :: rest) =
      .pollEvents :: (dispatchEvents dbg evts).1 := by
    simp only [runLoop, loopIteration]
    rw [if_neg Bool.false_ne_true, hsnd]
    simp
  refine ⟨hrun, ?_⟩
  intro a ha
  rw [hrun] at ha
  rcases List.mem_cons.mp ha with ha | ha
  · subst ha; exact ⟨by simp, by simp, by simp⟩
  · rcases dispatch_acts_shape dbg evts a ha with ⟨w, hh, rfl⟩ | ⟨e, rfl⟩ <;>
      exact ⟨by simp, by simp, by simp⟩

/-- Witness for `close_exits_loop_immediately`: one iteration polling an
ordinary event followed by a close request. -/
theorem close_exits_loop_immediately_witness :
    runLoop false [(false, [WindowEvent.Other 0, WindowEvent.Close]),
      (false, [])] =
      [AppAction.pollEvents, AppAction.onEvent (WindowEvent.Other 0)] := by
  rw [(close_exits_loop_immediately false [WindowEvent.Other 0, WindowEvent.Close]
    [(false, [])] (by decide)).1]
  rfl

/-- C3 counterexample: a close-request event (and, in a debug build, an
escape-key press) hits `break 'main` before the `app.on_event` call, so
it is never forwarded to the user's event callback — the dispatch trace
of an iteration polling only that event is empty. -/
theorem close_not_forwarded_counterexample :
    (dispatchEvents true [WindowEvent.Close]).1 = [] ∧
    AppAction.onEvent WindowEvent.Close ∉ (dispatchEvents true [WindowEvent.Close]).1 ∧
    (dispatchEvents true [WindowEvent.Key .Escape 1 .Press 0]).1 = [] := by
  decide

/-- C3 (amended): within an iteration, every polled event strictly
before the first close-triggering event (a close request, or in debug
builds an escape-key press) is forwarded to the user's `on_event`
callback after its built-in handling — in particular a resize event's
viewport call immediately precedes its forwarding; the first
close-triggering event and everything polled after it in that iteration
are not forwarded. -/
theorem events_forwarded_until_close (dbg : Bool) (evts : List WindowEvent) :
    (∀ e ∈ evts.takeWhile (fun e => !isCloseTrigger dbg e),
      AppAction.onEvent e ∈ (dispatchEvents dbg evts).1) ∧
    (∀ e, isCloseTrigger dbg e = true →
      AppAction.onEvent e ∉ (dispatchEvents dbg evts).1) ∧
    (∀ w h, WindowEvent.FramebufferSize w h ∈
        evts.takeWhile (fun e => !isCloseTrigger dbg e) →
      ∃ l₁ l₂, (dispatchEvents dbg evts).1 =
        l₁ ++ .glViewport 0 0 w h :: .onEvent (.FramebufferSize w h) :: l₂) ∧
    (∀ e, AppAction.onEvent e ∈ (dispatchEvents dbg evts).1 →
      e ∈ evts.takeWhile (fun e => !isCloseTrigger dbg e)) := by
  refine ⟨?_, ?_, ?_, ?_⟩
  · intro e he
    rw [dispatchEvents_eq]
    exact List.mem_flatMap.mpr ⟨e, he, by cases e <;> simp [builtinActs]⟩
  · intro e htrig hmem
    rw [dispatchEvents_eq] at hmem
    obtain ⟨e', he', hin⟩ := List.mem_flatMap.mp hmem
    have : e = e' := by
      cases e' <;> simp [builtinActs] at hin <;> simp [hin]
    subst this
    have := List.mem_takeWhile_imp he'
    simp [htrig] at this
  · intro w h hmem
    rw [dispatchEvents_eq]
    obtain ⟨s, t, hst⟩ := List.append_of_mem hmem
    refine ⟨s.flatMap (fun e => builtinActs e ++ [.onEvent e]),
      t.flatMap (fun e => builtinActs e ++ [.onEvent e]), ?_⟩
    rw [hst]
    simp [builtinActs]
  · intro e hmem
    rw [dispatchEvents_eq] at hmem
    obtain ⟨e', he', hin⟩ := List.mem_flatMap.mp hmem
    have heq : e = e' := by
      cases e' <;> simp [builtinActs] at hin <;> simp [hin]
    exact heq ▸ he'

/-- Witness for `events_forwarded_until_close`: an ordinary event before
a close request is forwarded; the close request is not; an ordinary
event polled after the close request is not forwarded either. -/
theorem events_forwarded_until_close_witness :
    AppAction.onEvent (WindowEvent.Other 3) ∈
      (dispatchEvents true [WindowEvent.FramebufferSize 10 20,
        WindowEvent.Other 3, WindowEvent.Close, WindowEvent.Other 7]).1 ∧
    AppAction.onEvent WindowEvent.Close ∉
      (dispatchEvents true [WindowEvent.FramebufferSize 10 20,
        WindowEvent.Other 3, WindowEvent.Close, WindowEvent.Other 7]).1 ∧
    AppAction.onEvent (WindowEvent.Other 7) ∉
      (dispatchEvents true [WindowEvent.FramebufferSize 10 20,
        WindowEvent.Other 3, WindowEvent.Close, WindowEvent.Other 7]).1 := by
  have h := events_forwarded_until_close true
    [WindowEvent.FramebufferSize 10 20, WindowEvent.Other 3,
      WindowEvent.Close, WindowEvent.Other 7]
  refine ⟨h.1 (WindowEvent.Other 3) (by decide),
    h.2.1 WindowEvent.Close (by decide), ?_⟩
  intro hmem
  exact absurd (h.2.2.2 (WindowEvent.Other 7) hmem) (by decide)

/-- C2 counterexample: a run whose user init callback fails.  `init
(opts, true)` has already executed `wnd.show()` before
`f.init(&mut ctx)` is reached, so the trace contains the show-window
action even though the run returns the boxed init error — the window is
visible before (and regardless of) init's success. -/
theorem window_shown_before_init_counterexample :
    RunAct.setup .showWindow ∈
      (_run_app_with false (AppOptions.default false) true
        (.error "init failed") []).1 ∧
    (_run_app_with false (AppOptions.default false) true
      (.error "init failed") []).2 = .error "init failed" := by
  constructor
  · simp [_run_app_with, init]
  · simp [_run_app_with]

/-- C2 (amended): the window is made visible at the end of the one-time
setup, strictly before the user's init callback is invoked, in every
run; when init fails the run still aborts with the boxed error and no
frame of the loop executes — but the window has already been shown. -/
theorem window_shown_during_setup (dbg : Bool) (opts : AppOptions) (dok : Bool)
    (r : Except String Unit) (world : List (Bool × List WindowEvent)) :
    (∃ pre post, (_run_app_with dbg opts dok r world).1 =
        pre ++ RunAct.setup .showWindow :: post ∧
      RunAct.userInit ∉ pre ∧ RunAct.userInit ∈ post) ∧
    (∀ e, r = .error e → (_run_app_with dbg opts dok r world).2 = .error e ∧
      ∀ a, RunAct.frame a ∉ (_run_app_with dbg opts dok r world).1) := by
  have hinit : init opts true dok =
      ([SetupAct.windowHintContextVersion opts.gl_version.1 opts.gl_version.2,
        .windowHintProfileCore, .windowHintForwardCompat,
        .windowHintDebugContext
          (opts.gl_debug_output && is_debug_output_supported opts.gl_version),
        .windowHintVisible false,
        .createWindow 1280 720 cargoPkgName,
        .setEventPolling, .centerWindow, .makeCurrent, .loadGlSymbols]
        ++ (if opts.gl_debug_output then
              [.initDebugOutput (is_debug_output_supported opts.gl_version && dok)]
            else [])) ++ [SetupAct.showWindow] := by
    simp [init]
  constructor
  · refine ⟨([SetupAct.windowHintContextVersion opts.gl_version.1 opts.gl_version.2,
        .windowHintProfileCore, .windowHintForwardCompat,
        .windowHintDebugContext
          (opts.gl_debug_output && is_debug_output_supported opts.gl_version),
        .windowHintVisible false,
        .createWindow 1280 720 cargoPkgName,
        .setEventPolling, .centerWindow, .makeCurrent, .loadGlSymbols]
        ++ (if opts.gl_debug_output then
              [SetupAct.initDebugOutput (is_debug_output_supported opts.gl_version && dok)]
            else [])).map RunAct.setup,
      RunAct.ctxNew :: RunAct.userInit ::
        (match r with
          | .error _ => []
          | .ok _ => (runLoop dbg world).map RunAct.frame), ?_, ?_, ?_⟩
    · cases r <;> simp [_run_app_with, hinit]
    · simp
    · simp
  · intro e hr
    subst hr
    refine ⟨by simp [_run_app_with], ?_⟩
    intro a hmem
    simp [_run_app_with] at hmem

/-- Witness for `window_shown_during_setup` at a concrete failing
init. -/
theorem window_shown_during_setup_witness :
    (_run_app_with false (AppOptions.default false) true (.error "boom") []).2 =
      .error "boom" ∧
    RunAct.frame AppAction.draw ∉
      (_run_app_with false (AppOptions.default false) true (.error "boom") []).1 := by
  have h := (window_shown_during_setup false (AppOptions.default false) true
    (.error "boom") []).2 "boom" rfl
  exact ⟨h.1, h.2 AppAction.draw⟩

/-- C8: the setup ignores the caller's configured title and window
size.  `AppOptions` documents the defaults (program name, 856×482) and
carries both fields, yet `init` calls
`create_window(1280, 720, env!("CARGO_PKG_NAME"), ...)` with hard-coded
values: at a failing input with title "my app" and size 100×100
(and likewise with the documented defaults), the window is created as
1280×720 with the package name.  The hidden-creation part of the claim
does hold: the visible-false hint is set before the window is
created. -/
theorem init_ignores_title_and_size :
    SetupAct.createWindow 1280 720 cargoPkgName ∈
      init { title := "my app", window_size := (100, 100), gl_version := (4, 5),
             gl_debug_output := false } true true ∧
    SetupAct.createWindow 100 100 "my app" ∉
      init { title := "my app", window_size := (100, 100), gl_version := (4, 5),
             gl_debug_output := false } true true ∧
    SetupAct.createWindow 856 482 cargoPkgName ∉
      init (AppOptions.default false) true true ∧
    SetupAct.windowHintVisible false ∈
      init { title := "my app", window_size := (100, 100), gl_version := (4, 5),
             gl_debug_output := false } true true := by
  refine ⟨?_, ?_, ?_, ?_⟩ <;> decide
